import Mathlib

/-!
Verification of the frame-pipeline of the FaultDetection repository.

The embedding models `src/helper.py` (the video pipeline: tracker-option
selection, per-frame resize + inference dispatch, and the four per-source
play loops) and `src/apps/upload2.py` (the zip-batch still-image path).

External collaborators are modelled by their interfaces:
  * the YOLO inference engine is an opaque function from an inference
    request to either an annotated frame or a raised exception message
    (`Except String Frame`);
  * `cv2.VideoCapture` is modelled by its observable outcome: opening
    either raises an exception, or yields a capture object carrying an
    `isOpened` flag and the finite stream of frames its successive
    `read()` calls will deliver before a read first returns
    `success = False` (which covers both normal exhaustion and a
    mid-stream transport failure — cv2 reports both as a failed read);
  * streamlit widgets (`st.radio`, `st.slider`) are modelled as functions
    of an arbitrary user pick, constrained exactly as the widget
    constrains its return value.
-/

/-- A decoded image: a pixel buffer abstracted to its dimensions plus an
identity tag used to follow a frame through the pipeline. -/
structure Frame where
  width : Nat
  height : Nat
  id : Nat
deriving DecidableEq, Repr

/-- Inference mode of a request: `model.predict` (detect) or `model.track`. -/
inductive Mode where
  | detect
  | track
deriving DecidableEq, Repr

/-- The arguments the code hands to the YOLO engine for one frame:
`model.track(image, conf=conf, persist=True, tracker=tracker)` when
tracking is displayed, `model.predict(image, conf=conf)` otherwise. -/
structure InferenceRequest where
  image : Frame
  conf : Rat
  mode : Mode
  tracker : Option String
  persist : Bool
deriving DecidableEq, Repr

/-- Outcome of `cv2.VideoCapture(...)` when the constructor returns: an
`isOpened` flag and the frames successive reads will yield while
`success` is `True`. -/
structure Capture where
  isOpened : Bool
  frames : List Frame
deriving DecidableEq, Repr

/-- Height of the resize target in `_display_detected_frames`:
`int(720 * (9/16))`.  The float computation `720 * (9/16)` is exact
(0.5625 and 405.0 are exactly representable), so rational arithmetic with
truncation models it faithfully. -/
def resizeHeight : Nat := (⌊(720 : Rat) * (9 / 16)⌋).toNat

/-- `image = cv2.resize(image, (720, int(720 * (9/16))))`:
`cv2.resize` takes `(width, height)` and preserves the pixel content
(here: the identity tag). -/
def resizeFrame (image : Frame) : Frame :=
  { width := 720, height := resizeHeight, id := image.id }

/-- The resize-then-dispatch core of `_display_detected_frames`: resize the
image, then build the engine call from the user selection — track mode with
`persist=True` and the chosen tracker when tracking is displayed, detect
mode otherwise. -/
def buildRequest (conf : Rat) (image : Frame) (is_display_tracking : Bool)
    (tracker : Option String) : InferenceRequest :=
  let image := resizeFrame image
  if is_display_tracking then
    { image := image, conf := conf, mode := Mode.track, tracker := tracker, persist := true }
  else
    { image := image, conf := conf, mode := Mode.detect, tracker := none, persist := false }

/-- `_display_detected_frames(conf, model, st_frame, image, is_display_tracking, tracker)`:
resize, invoke the engine, and (on success) emit the plotted frame to the
sink.  Returns the request that was issued together with the engine's
outcome; an engine exception propagates to the caller as the `Except.error`
case. -/
def display_detected_frames (engine : InferenceRequest → Except String Frame)
    (conf : Rat) (image : Frame) (is_display_tracking : Bool)
    (tracker : Option String) : InferenceRequest × Except String Frame :=
  let req := buildRequest conf image is_display_tracking tracker
  (req, engine req)

/-- Observable effects of the `while vid_cap.isOpened(): ...` loop body
shared by all four play functions: the annotated frames emitted to the
sink in order, the requests issued to the engine in order, how many times
`vid_cap.release()` ran, how many loop iterations ran, and the exception
(if any) that escaped the loop. -/
structure LoopOut where
  emitted : List Frame
  requests : List InferenceRequest
  releaseCount : Nat
  iterations : Nat
  exc : Option String
deriving DecidableEq, Repr

/-- The read-display loop of the play functions, on the frames a capture
will deliver: while the capture is open, `read()`; on `success` run
`_display_detected_frames` and continue; on a failed read `release()` and
`break`.  An exception raised by the engine escapes the loop (recorded in
`exc`), skipping the release. -/
def runLoop (engine : InferenceRequest → Except String Frame) (conf : Rat)
    (is_display_tracking : Bool) (tracker : Option String) :
    List Frame → LoopOut
  | [] => { emitted := [], requests := [], releaseCount := 1, iterations := 1, exc := none }
  | image :: rest =>
    match display_detected_frames engine conf image is_display_tracking tracker with
    | (req, Except.ok detected) =>
      let r := runLoop engine conf is_display_tracking tracker rest
      { emitted := detected :: r.emitted, requests := req :: r.requests,
        releaseCount := r.releaseCount, iterations := r.iterations + 1, exc := r.exc }
    | (req, Except.error m) =>
      { emitted := [], requests := [req], releaseCount := 0, iterations := 1, exc := some m }

/-- Observable effects of one whole play-function run: what reached the
sink, what reached the engine, which `st.sidebar.error` diagnostics were
shown, release count, iteration count, and (for the YouTube path) the
stream URL the capture was opened on. -/
structure RunResult where
  emitted : List Frame
  requests : List InferenceRequest
  errors : List String
  releaseCount : Nat
  iterations : Nat
  resolvedUrl : Option String
deriving DecidableEq, Repr

/-- The `try: open; loop ... except Exception as e: st.sidebar.error(prefix + str(e))`
wrapper shared by the stored-video, webcam and RTSP play functions.
`openResult` is the outcome of `cv2.VideoCapture(...)`. -/
def playRun (errPrefix : String) (engine : InferenceRequest → Except String Frame)
    (conf : Rat) (is_display_tracking : Bool) (tracker : Option String)
    (openResult : Except String Capture) : RunResult :=
  match openResult with
  | Except.error m =>
    { emitted := [], requests := [], errors := [errPrefix ++ m],
      releaseCount := 0, iterations := 0, resolvedUrl := none }
  | Except.ok cap =>
    if cap.isOpened then
      let r := runLoop engine conf is_display_tracking tracker cap.frames
      { emitted := r.emitted, requests := r.requests,
        errors := match r.exc with
                  | none => []
                  | some m => [errPrefix ++ m],
        releaseCount := r.releaseCount, iterations := r.iterations, resolvedUrl := none }
    else
      { emitted := [], requests := [], errors := [],
        releaseCount := 0, iterations := 0, resolvedUrl := none }

/-- `play_stored_video(conf, model)` after the user pressed the button:
open the selected video file and run the loop; any exception is caught and
shown as `"Error loading video: " + str(e)`. -/
def play_stored_video (engine : InferenceRequest → Except String Frame)
    (conf : Rat) (is_display_tracking : Bool) (tracker : Option String)
    (openResult : Except String Capture) : RunResult :=
  playRun "Error loading video: " engine conf is_display_tracking tracker openResult

/-- `play_webcam(conf, model)` after the button: identical loop on the
webcam capture; exceptions shown as `"Error loading video: " + str(e)`. -/
def play_webcam (engine : InferenceRequest → Except String Frame)
    (conf : Rat) (is_display_tracking : Bool) (tracker : Option String)
    (openResult : Except String Capture) : RunResult :=
  playRun "Error loading video: " engine conf is_display_tracking tracker openResult

/-- `play_rtsp_stream(conf, model)` after the button: identical loop on the
RTSP capture; exceptions shown as `"Error loading RTSP stream: " + str(e)`. -/
def play_rtsp_stream (engine : InferenceRequest → Except String Frame)
    (conf : Rat) (is_display_tracking : Bool) (tracker : Option String)
    (openResult : Except String Capture) : RunResult :=
  playRun "Error loading RTSP stream: " engine conf is_display_tracking tracker openResult

/-- One stream a pytubefix `YouTube(url).streams` query can return,
abstracted to the attributes the code filters on plus its direct media
URL. -/
structure YStream where
  file_extension : String
  res : Nat
  url : String
deriving DecidableEq, Repr

/-- Message of the `AttributeError` Python raises when
`yt.streams.filter(...).first()` returned `None` and the code reads
`stream.url`. -/
def noneUrlMsg : String := "NoneType object has no attribute url"

/-- `play_youtube_video(conf, model)` after the button:
`stream = yt.streams.filter(file_extension="mp4", res=720).first()`, then
`cv2.VideoCapture(stream.url)` and the shared loop; every exception —
including the `AttributeError` when no stream matched — is caught and
shown as `"Error loading video: " + str(e)`.  `streams` is the list the
descriptor resolves to; `openUrl` is `cv2.VideoCapture` on a URL. -/
def play_youtube_video (engine : InferenceRequest → Except String Frame)
    (conf : Rat) (is_display_tracking : Bool) (tracker : Option String)
    (streams : List YStream) (openUrl : String → Except String Capture) : RunResult :=
  match (streams.filter (fun s => s.file_extension == "mp4" && s.res == 720)).head? with
  | none =>
    { emitted := [], requests := [], errors := ["Error loading video: " ++ noneUrlMsg],
      releaseCount := 0, iterations := 0, resolvedUrl := none }
  | some s =>
    let r := playRun "Error loading video: " engine conf is_display_tracking tracker (openUrl s.url)
    { r with resolvedUrl := some s.url }

/-- `st.radio(label, options)`: returns the option the user selected —
always an element of `options` (modelled by an arbitrary pick index taken
modulo the number of options). -/
def stRadio (options : List String) (pick : Nat) : String :=
  options.getD (pick % options.length) ""

/-- `display_tracker_options()`: radio "Display Tracker" over
`('Yes', 'No')`; when Yes, a second radio "Tracker" over
`("bytetrack.yaml", "botsort.yaml")` and the pair `(True, tracker_type)`;
otherwise `(False, None)`. -/
def display_tracker_options (pick1 pick2 : Nat) : Bool × Option String :=
  let display_tracker := stRadio ["Yes", "No"] pick1
  let is_display_tracker := display_tracker == "Yes"
  if is_display_tracker then
    let tracker_type := stRadio ["bytetrack.yaml", "botsort.yaml"] pick2
    (is_display_tracker, some tracker_type)
  else
    (is_display_tracker, none)

/-- `st.slider(label, lo, hi, default)`: returns an integer the user
selected within `[lo, hi]` (modelled by clamping an arbitrary pick). -/
def stSlider (lo hi pick : Nat) : Nat :=
  max lo (min hi pick)

/-- `confidence = float(st.sidebar.slider("Select Model Confidence", 25, 100, 40)) / 100`
in `upload2.app`. -/
def upload2Confidence (pick : Nat) : Rat :=
  ((stSlider 25 100 pick : Nat) : Rat) / 100

/-- The extension allowlist of `upload2.app`:
`file_name.lower().endswith((".jpg", ".jpeg", ".png", ".bmp", ".webp"))`. -/
def isImageName (name : String) : Bool :=
  [".jpg", ".jpeg", ".png", ".bmp", ".webp"].any (fun e => name.toLower.endsWith e)

/-- Observable effects of the zip-batch loop of `upload2.app`: the
`(file_name, detected_image)` pairs appended to `detected_images` (each
later shown once, in list order, in the grid), and the `st.error`
diagnostics shown. -/
structure BatchResult where
  submitted : List (String × Nat)
  displayed : List (String × Frame)
  errors : List String
deriving DecidableEq, Repr

/-- The per-entry loop of `upload2.app` over the entries
`extract_zip_in_memory` returned, in archive order: entries whose
lowercased name does not end in an allowed extension are skipped with no
output; for the rest, `PIL.Image.open` + `predict` + `plot` (modelled
together by `detect`, which may raise); on success the detected image is
appended, on an exception an `st.error` diagnostic is shown and the loop
continues with the next entry. -/
def processZipEntries (detect : String × Nat → Except String Frame) :
    List (String × Nat) → BatchResult
  | [] => { submitted := [], displayed := [], errors := [] }
  | entry :: rest =>
    let r := processZipEntries detect rest
    if isImageName entry.1 then
      match detect entry with
      | Except.ok img =>
        { submitted := entry :: r.submitted,
          displayed := (entry.1, img) :: r.displayed, errors := r.errors }
      | Except.error m =>
        { submitted := entry :: r.submitted,
          displayed := r.displayed,
          errors := ("Error processing image " ++ entry.1 ++ ": " ++ m) :: r.errors }
    else
      r

/-! ### Concrete fixtures used by counterexamples and witnesses -/

/-- A source frame of a typical camera resolution, tagged `i`. -/
def mkFrame (i : Nat) : Frame := { width := 1920, height := 1080, id := i }

/-- A ten-frame stored video, frames tagged 1..10. -/
def tenFrames : List Frame := (List.range 10).map (fun i => mkFrame (i + 1))

/-- An engine that faults exactly on the frame tagged 5 and annotates
every other frame in place. -/
def engineFault5 : InferenceRequest → Except String Frame := fun req =>
  if req.image.id = 5 then Except.error "engine fault" else Except.ok req.image

/-- An engine that never faults: it returns the (resized) input as the
annotated frame. -/
def engineOk : InferenceRequest → Except String Frame := fun req => Except.ok req.image

/-- An engine that faults on every frame. -/
def engineFail : InferenceRequest → Except String Frame := fun _ => Except.error "boom"

/-- The four frames before the faulting frame of end-to-end scenario C. -/
def fourFrames : List Frame := [mkFrame 1, mkFrame 2, mkFrame 3, mkFrame 4]

/-- The five frames after the faulting frame of end-to-end scenario C. -/
def lastFive : List Frame := [mkFrame 6, mkFrame 7, mkFrame 8, mkFrame 9, mkFrame 10]

/-- A stream listing in which the first mp4/720 stream is the third
entry, with URL "u720". -/
def ytStreams : List YStream :=
  [{ file_extension := "mp4", res := 360, url := "u360" },
   { file_extension := "webm", res := 720, url := "uwebm" },
   { file_extension := "mp4", res := 720, url := "u720" }]

/-! ### Helper lemmas about the shared loop -/

theorem resizeHeight_eq : resizeHeight = 405 := by
  have h : ((720 : Rat) * (9 / 16)) = ((405 : Nat) : Rat) := by norm_num
  rw [resizeHeight, h, Int.floor_natCast]
  rfl

theorem runLoop_all_ok (engine : InferenceRequest → Except String Frame) (conf : Rat)
    (b : Bool) (tracker : Option String) (g : Frame → Frame) :
    ∀ frames : List Frame,
      (∀ f ∈ frames, engine (buildRequest conf f b tracker) = Except.ok (g f)) →
      runLoop engine conf b tracker frames =
        { emitted := frames.map g,
          requests := frames.map (fun f => buildRequest conf f b tracker),
          releaseCount := 1, iterations := frames.length + 1, exc := none } := by
  intro frames
  induction frames with
  | nil => intro _; rfl
  | cons f rest ih =>
    intro h
    have hf := h f (List.mem_cons_self f rest)
    have hrest := ih (fun x hx => h x (List.mem_cons_of_mem f hx))
    simp only [runLoop, display_detected_frames, hf, hrest, List.map_cons, List.length_cons]

theorem runLoop_fault (engine : InferenceRequest → Except String Frame) (conf : Rat)
    (b : Bool) (tracker : Option String) (g : Frame → Frame)
    (pre : List Frame) (x : Frame) (post : List Frame) (m : String)
    (hpre : ∀ f ∈ pre, engine (buildRequest conf f b tracker) = Except.ok (g f))
    (hx : engine (buildRequest conf x b tracker) = Except.error m) :
    runLoop engine conf b tracker (pre ++ x :: post) =
      { emitted := pre.map g,
        requests := pre.map (fun f => buildRequest conf f b tracker) ++ [buildRequest conf x b tracker],
        releaseCount := 0, iterations := pre.length + 1, exc := some m } := by
  induction pre with
  | nil =>
    simp only [List.nil_append, runLoop, display_detected_frames, hx, List.map_nil, List.length_nil]
  | cons f rest ih =>
    have hf := hpre f (List.mem_cons_self f rest)
    have hrest := ih (fun y hy => hpre y (List.mem_cons_of_mem f hy))
    simp only [List.cons_append, runLoop, display_detected_frames, hf, List.append_eq, hrest,
      List.map_cons, List.length_cons]

theorem runLoop_requests_shape (engine : InferenceRequest → Except String Frame) (conf : Rat)
    (b : Bool) (tracker : Option String) :
    ∀ frames : List Frame, ∀ req ∈ (runLoop engine conf b tracker frames).requests,
      ∃ f, req = buildRequest conf f b tracker := by
  intro frames
  induction frames with
  | nil => intro req h; simp [runLoop] at h
  | cons f rest ih =>
    intro req h
    cases heng : engine (buildRequest conf f b tracker) with
    | ok detected =>
      simp only [runLoop, display_detected_frames, heng, List.mem_cons] at h
      rcases h with h | h
      · exact ⟨f, h⟩
      · exact ih req h
    | error m =>
      simp only [runLoop, display_detected_frames, heng, List.mem_singleton] at h
      exact ⟨f, h⟩

theorem playRun_requests_shape (p : String) (engine : InferenceRequest → Except String Frame)
    (conf : Rat) (b : Bool) (tracker : Option String) (openResult : Except String Capture) :
    ∀ req ∈ (playRun p engine conf b tracker openResult).requests,
      ∃ f, req = buildRequest conf f b tracker := by
  intro req h
  cases openResult with
  | error m => simp [playRun] at h
  | ok cap =>
    by_cases hop : cap.isOpened
    · simp only [playRun, hop, if_true] at h
      exact runLoop_requests_shape engine conf b tracker cap.frames req h
    · simp [playRun, hop] at h

theorem buildRequest_dims (conf : Rat) (image : Frame) (b : Bool) (tracker : Option String) :
    (buildRequest conf image b tracker).image.width = 720 ∧
    (buildRequest conf image b tracker).image.height = 405 := by
  cases b <;> simp [buildRequest, resizeFrame, resizeHeight_eq]

/-! ### Claim theorems -/

/-- Claim C1, counterexample: on a 10-frame stored video where inference
faults only on frame 5, the code does NOT emit frames 6-10 — the engine
exception escapes the read-display loop and ends the run, so only frames
1-4 are emitted; in particular frame 6 is not emitted, contradicting the
claim that frames 1-4 and 6-10 are each emitted. -/
theorem c1_counterexample :
    (play_stored_video engineFault5 (2/5) true (some "bytetrack.yaml")
        (Except.ok { isOpened := true, frames := tenFrames })).emitted.map Frame.id = [1, 2, 3, 4] ∧
    ¬ (6 ∈ (play_stored_video engineFault5 (2/5) true (some "bytetrack.yaml")
        (Except.ok { isOpened := true, frames := tenFrames })).emitted.map Frame.id) := by
  decide

/-- Claim C1, amended: when the inference call fails on one frame of a
stored-video run, that frame is dropped (not emitted), a diagnostic with
the causal message is surfaced, and the run terminates without crashing —
the frames before the faulting frame are emitted, but the loop does not
continue: no later frame is emitted. -/
theorem c1_theorem (engine : InferenceRequest → Except String Frame)
    (conf : Rat) (b : Bool) (tracker : Option String) (g : Frame → Frame)
    (pre : List Frame) (x : Frame) (post : List Frame) (m : String)
    (hpre : ∀ f ∈ pre, engine (buildRequest conf f b tracker) = Except.ok (g f))
    (hx : engine (buildRequest conf x b tracker) = Except.error m) :
    (play_stored_video engine conf b tracker
        (Except.ok { isOpened := true, frames := pre ++ x :: post })).emitted = pre.map g ∧
    (play_stored_video engine conf b tracker
        (Except.ok { isOpened := true, frames := pre ++ x :: post })).errors =
      ["Error loading video: " ++ m] := by
  have h := runLoop_fault engine conf b tracker g pre x post m hpre hx
  simp [play_stored_video, playRun, h]

/-- Witness for `c1_theorem`: the scenario-C input — ten frames, fault on
frame 5, tracking enabled with the first tracker algorithm. -/
theorem c1_witness :
    (play_stored_video engineFault5 (2/5) true (some "bytetrack.yaml")
        (Except.ok { isOpened := true, frames := fourFrames ++ mkFrame 5 :: lastFive })).emitted =
      fourFrames.map resizeFrame ∧
    (play_stored_video engineFault5 (2/5) true (some "bytetrack.yaml")
        (Except.ok { isOpened := true, frames := fourFrames ++ mkFrame 5 :: lastFive })).errors =
      ["Error loading video: " ++ "engine fault"] :=
  c1_theorem engineFault5 (2/5) true (some "bytetrack.yaml") resizeFrame
    fourFrames (mkFrame 5) lastFive "engine fault"
    (by intro f hf; fin_cases hf <;> rfl) rfl

/-- Claim C2, counterexample: a run that opens its capture and then hits
an engine exception while processing frame 1 never releases the capture —
the release count is 0, not 1, on that exit path. -/
theorem c2_counterexample :
    (play_stored_video engineFail 1 false none
        (Except.ok { isOpened := true, frames := [mkFrame 1] })).releaseCount = 0 := by
  decide

/-- Claim C2, amended: the capture resource is released exactly once when
the run exits through a failed read (normal exhaustion or mid-stream read
failure), but it is NOT released (release count 0) when an error raised
while processing a frame ends the run. -/
theorem c2_theorem (engine : InferenceRequest → Except String Frame)
    (conf : Rat) (b : Bool) (tracker : Option String) (g : Frame → Frame) :
    (∀ frames : List Frame,
       (∀ f ∈ frames, engine (buildRequest conf f b tracker) = Except.ok (g f)) →
       (play_stored_video engine conf b tracker
           (Except.ok { isOpened := true, frames := frames })).releaseCount = 1) ∧
    (∀ pre x post m,
       (∀ f ∈ pre, engine (buildRequest conf f b tracker) = Except.ok (g f)) →
       engine (buildRequest conf x b tracker) = Except.error m →
       (play_stored_video engine conf b tracker
           (Except.ok { isOpened := true, frames := pre ++ x :: post })).releaseCount = 0) := by
  constructor
  · intro frames h
    have hl := runLoop_all_ok engine conf b tracker g frames h
    simp [play_stored_video, playRun, hl]
  · intro pre x post m hpre hx
    have hl := runLoop_fault engine conf b tracker g pre x post m hpre hx
    simp [play_stored_video, playRun, hl]

/-- Witness for `c2_theorem`: a healthy one-frame run releases once; a
one-frame run whose engine faults releases zero times. -/
theorem c2_witness :
    (play_stored_video engineOk 1 false none
        (Except.ok { isOpened := true, frames := [mkFrame 1] })).releaseCount = 1 ∧
    (play_stored_video engineFail 1 false none
        (Except.ok { isOpened := true, frames := [] ++ mkFrame 1 :: [] })).releaseCount = 0 :=
  ⟨(c2_theorem engineOk 1 false none resizeFrame).1 [mkFrame 1] (by intro f hf; rfl),
   (c2_theorem engineFail 1 false none resizeFrame).2 [] (mkFrame 1) [] "boom"
     (by intro f hf; simp at hf) rfl⟩

/-- Claim C3: every request any of the four play paths hands to the
inference engine carries a frame resized to width 720 and height 405,
where 405 is exactly the coded `int(720 * (9/16))` target. -/
theorem c3_theorem (engine : InferenceRequest → Except String Frame)
    (conf : Rat) (b : Bool) (tracker : Option String)
    (o1 o2 o3 : Except String Capture) (streams : List YStream)
    (openUrl : String → Except String Capture) :
    (∀ req ∈ (play_stored_video engine conf b tracker o1).requests,
        req.image.width = 720 ∧ req.image.height = 405) ∧
    (∀ req ∈ (play_webcam engine conf b tracker o2).requests,
        req.image.width = 720 ∧ req.image.height = 405) ∧
    (∀ req ∈ (play_rtsp_stream engine conf b tracker o3).requests,
        req.image.width = 720 ∧ req.image.height = 405) ∧
    (∀ req ∈ (play_youtube_video engine conf b tracker streams openUrl).requests,
        req.image.width = 720 ∧ req.image.height = 405) ∧
    resizeHeight = 405 := by
  refine ⟨?_, ?_, ?_, ?_, resizeHeight_eq⟩
  · intro req h
    obtain ⟨f, rfl⟩ := playRun_requests_shape _ engine conf b tracker o1 req h
    exact buildRequest_dims conf f b tracker
  · intro req h
    obtain ⟨f, rfl⟩ := playRun_requests_shape _ engine conf b tracker o2 req h
    exact buildRequest_dims conf f b tracker
  · intro req h
    obtain ⟨f, rfl⟩ := playRun_requests_shape _ engine conf b tracker o3 req h
    exact buildRequest_dims conf f b tracker
  · intro req h
    unfold play_youtube_video at h
    cases hh : (streams.filter fun s => s.file_extension == "mp4" && s.res == 720).head? with
    | none => rw [hh] at h; simp at h
    | some s =>
      rw [hh] at h
      simp only [] at h
      obtain ⟨f, rfl⟩ := playRun_requests_shape _ engine conf b tracker (openUrl s.url) req h
      exact buildRequest_dims conf f b tracker

/-- Witness for `c3_theorem`: the request issued for the single frame of a
one-frame stored-video run has width 720 and height 405. -/
theorem c3_witness :
    (buildRequest 1 (mkFrame 1) false none).image.width = 720 ∧
    (buildRequest 1 (mkFrame 1) false none).image.height = 405 :=
  (c3_theorem engineOk 1 false none
      (Except.ok { isOpened := true, frames := [mkFrame 1] })
      (Except.ok { isOpened := false, frames := [] })
      (Except.ok { isOpened := false, frames := [] }) []
      (fun _ => Except.ok { isOpened := false, frames := [] })).1
    (buildRequest 1 (mkFrame 1) false none)
    (by
      show buildRequest 1 (mkFrame 1) false none ∈
        (play_stored_video engineOk 1 false none
          (Except.ok { isOpened := true, frames := [mkFrame 1] })).requests
      rw [show (play_stored_video engineOk 1 false none
          (Except.ok { isOpened := true, frames := [mkFrame 1] })).requests =
          [buildRequest 1 (mkFrame 1) false none] from rfl]
      exact List.mem_singleton_self _)

/-- Claim C4, counterexample: an RTSP connection failure in which
`cv2.VideoCapture` returns an unopened capture (its ordinary failure
mode) produces NO user-visible diagnostic — the run ends silently with no
frame emitted, contradicting "a diagnostic is surfaced; never silently
swallowed". -/
theorem c4_counterexample :
    (play_rtsp_stream engineOk 1 false none
        (Except.ok { isOpened := false, frames := [] })).errors = [] ∧
    (play_rtsp_stream engineOk 1 false none
        (Except.ok { isOpened := false, frames := [] })).emitted = [] := by
  decide

/-- Claim C4, amended: an RTSP source that fails to connect at open time
never emits a frame; a diagnostic with the causal message is surfaced only
when the open raises an exception — when the open returns an unopened
capture the run ends silently with no diagnostic. -/
theorem c4_theorem (engine : InferenceRequest → Except String Frame)
    (conf : Rat) (b : Bool) (tracker : Option String) :
    (∀ m : String,
       (play_rtsp_stream engine conf b tracker (Except.error m)).emitted = [] ∧
       (play_rtsp_stream engine conf b tracker (Except.error m)).errors =
         ["Error loading RTSP stream: " ++ m]) ∧
    (∀ frames : List Frame,
       (play_rtsp_stream engine conf b tracker
           (Except.ok { isOpened := false, frames := frames })).emitted = [] ∧
       (play_rtsp_stream engine conf b tracker
           (Except.ok { isOpened := false, frames := frames })).errors = []) := by
  constructor
  · intro m; exact ⟨rfl, rfl⟩
  · intro frames; exact ⟨rfl, rfl⟩

/-- Claim C5: a stored-video run over N readable frames on which the
engine never faults emits exactly the N annotated frames in stream order,
surfaces no error, releases the capture exactly once, and runs exactly
N + 1 loop iterations — one past the last readable frame. -/
theorem c5_theorem (engine : InferenceRequest → Except String Frame)
    (conf : Rat) (b : Bool) (tracker : Option String) (g : Frame → Frame)
    (frames : List Frame)
    (h : ∀ f ∈ frames, engine (buildRequest conf f b tracker) = Except.ok (g f)) :
    (play_stored_video engine conf b tracker
        (Except.ok { isOpened := true, frames := frames })).emitted = frames.map g ∧
    (play_stored_video engine conf b tracker
        (Except.ok { isOpened := true, frames := frames })).errors = [] ∧
    (play_stored_video engine conf b tracker
        (Except.ok { isOpened := true, frames := frames })).releaseCount = 1 ∧
    (play_stored_video engine conf b tracker
        (Except.ok { isOpened := true, frames := frames })).iterations = frames.length + 1 := by
  have hl := runLoop_all_ok engine conf b tracker g frames h
  simp [play_stored_video, playRun, hl]

/-- Witness for `c5_theorem`: the scenario-A input — a 10-frame video,
tracking disabled, confidence 0.4 — emits exactly 10 annotated frames and
terminates normally after 11 iterations with one release. -/
theorem c5_witness :
    (play_stored_video engineOk (2/5) false none
        (Except.ok { isOpened := true, frames := tenFrames })).emitted = tenFrames.map resizeFrame ∧
    (play_stored_video engineOk (2/5) false none
        (Except.ok { isOpened := true, frames := tenFrames })).errors = [] ∧
    (play_stored_video engineOk (2/5) false none
        (Except.ok { isOpened := true, frames := tenFrames })).releaseCount = 1 ∧
    (play_stored_video engineOk (2/5) false none
        (Except.ok { isOpened := true, frames := tenFrames })).iterations = tenFrames.length + 1 :=
  c5_theorem engineOk (2/5) false none resizeFrame tenFrames (by intro f hf; rfl)

/-- Claim C6: the request built for a frame is in track mode exactly when
tracking is enabled — then it carries the configured tracker identifier
and `persist=True` — and in detect mode (no tracker, no persisted
context) otherwise; in both modes the configured confidence threshold is
passed unchanged. -/
theorem c6_theorem (conf : Rat) (image : Frame) (b : Bool) (tracker : Option String) :
    ((buildRequest conf image b tracker).mode = Mode.track ↔ b = true) ∧
    (buildRequest conf image b tracker).conf = conf ∧
    (b = true → (buildRequest conf image b tracker).tracker = tracker ∧
        (buildRequest conf image b tracker).persist = true) ∧
    (b = false → (buildRequest conf image b tracker).mode = Mode.detect ∧
        (buildRequest conf image b tracker).tracker = none ∧
        (buildRequest conf image b tracker).persist = false) := by
  cases b <;> simp [buildRequest]

/-- Witness for `c6_theorem`: with tracking enabled and the first tracker
algorithm, the request carries that tracker and the persisted context. -/
theorem c6_witness :
    (buildRequest 1 (mkFrame 1) true (some "bytetrack.yaml")).tracker = some "bytetrack.yaml" ∧
    (buildRequest 1 (mkFrame 1) true (some "bytetrack.yaml")).persist = true :=
  (c6_theorem 1 (mkFrame 1) true (some "bytetrack.yaml")).2.2.1 rfl

/-- Claim C7: the YouTube path resolves the descriptor to the URL of the
first stream with mp4 file format and resolution 720 before any capture
is opened; when no such stream exists the run emits nothing, surfaces an
error, and never calls the capture opener (the result is independent of
it). -/
theorem c7_theorem (engine : InferenceRequest → Except String Frame)
    (conf : Rat) (b : Bool) (tracker : Option String)
    (streams : List YStream) (openUrl : String → Except String Capture) :
    (∀ s, (streams.filter (fun s => s.file_extension == "mp4" && s.res == 720)).head? = some s →
       (play_youtube_video engine conf b tracker streams openUrl).resolvedUrl = some s.url) ∧
    ((streams.filter (fun s => s.file_extension == "mp4" && s.res == 720)).head? = none →
       (play_youtube_video engine conf b tracker streams openUrl).errors =
         ["Error loading video: " ++ noneUrlMsg] ∧
       (play_youtube_video engine conf b tracker streams openUrl).emitted = [] ∧
       ∀ openUrl2, play_youtube_video engine conf b tracker streams openUrl2 =
         play_youtube_video engine conf b tracker streams openUrl) := by
  constructor
  · intro s hs
    unfold play_youtube_video
    rw [hs]
  · intro hn
    unfold play_youtube_video
    rw [hn]
    exact ⟨rfl, rfl, fun openUrl2 => rfl⟩

/-- Witness for `c7_theorem`: on a listing whose first mp4/720 stream has
URL "u720", the run opens exactly that URL. -/
theorem c7_witness :
    (play_youtube_video engineOk 1 false none ytStreams
        (fun _ => Except.ok { isOpened := false, frames := [] })).resolvedUrl = some "u720" :=
  (c7_theorem engineOk 1 false none ytStreams
      (fun _ => Except.ok { isOpened := false, frames := [] })).1
    { file_extension := "mp4", res := 720, url := "u720" } (by rfl)

/-- Claim C8: whatever the user picks, the tracker-options selection
returns a tracker identifier that is one of exactly the two supported
variants when tracking is enabled, and `None` when tracking is
disabled. -/
theorem c8_theorem (pick1 pick2 : Nat) :
    ((display_tracker_options pick1 pick2).1 = true →
       (display_tracker_options pick1 pick2).2 = some "bytetrack.yaml" ∨
       (display_tracker_options pick1 pick2).2 = some "botsort.yaml") ∧
    ((display_tracker_options pick1 pick2).1 = false →
       (display_tracker_options pick1 pick2).2 = none) := by
  rcases Nat.mod_two_eq_zero_or_one pick1 with h1 | h1 <;>
    rcases Nat.mod_two_eq_zero_or_one pick2 with h2 | h2 <;>
      simp [display_tracker_options, stRadio, h1, h2]

/-- Witness for `c8_theorem`: picking "Yes" and the first tracker yields
one of the two supported identifiers. -/
theorem c8_witness :
    (display_tracker_options 0 0).2 = some "bytetrack.yaml" ∨
    (display_tracker_options 0 0).2 = some "botsort.yaml" :=
  (c8_theorem 0 0).1 rfl

/-- Claim C9: the confidence threshold of the zip-batch still-image path
always lies in [1/4, 1]: it is an integer slider value in 25..100 divided
by 100, so a threshold below 0.25 can never be requested. -/
theorem c9_theorem (pick : Nat) :
    1/4 ≤ upload2Confidence pick ∧ upload2Confidence pick ≤ 1 ∧
    ∃ n : Nat, 25 ≤ n ∧ n ≤ 100 ∧ upload2Confidence pick = (n : Rat) / 100 := by
  have h1 : 25 ≤ stSlider 25 100 pick := le_max_left _ _
  have h2 : stSlider 25 100 pick ≤ 100 := by
    unfold stSlider
    exact max_le (by norm_num) (min_le_left _ _)
  have hv1 : (25 : Rat) ≤ (stSlider 25 100 pick : Nat) := by exact_mod_cast h1
  have hv2 : ((stSlider 25 100 pick : Nat) : Rat) ≤ 100 := by exact_mod_cast h2
  refine ⟨?_, ?_, stSlider 25 100 pick, h1, h2, rfl⟩
  · unfold upload2Confidence
    rw [le_div_iff₀ (by norm_num : (0 : Rat) < 100)]
    linarith
  · unfold upload2Confidence
    rw [div_le_one (by norm_num : (0 : Rat) < 100)]
    linarith

/-- Claim C10: in the zip-batch path, exactly the archive entries whose
lowercased name ends in one of the five image extensions are submitted to
detection, in archive order; each successfully detected image contributes
exactly one displayed `(name, image)` pair in archive order; a detection
failure contributes one diagnostic naming the file and the causal message
while later entries are still processed; non-matching entries contribute
nothing at all. -/
theorem c10_theorem (detect : String × Nat → Except String Frame) :
    ∀ entries : List (String × Nat),
      (processZipEntries detect entries).submitted =
        entries.filter (fun e => isImageName e.1) ∧
      (processZipEntries detect entries).displayed =
        entries.filterMap (fun e =>
          if isImageName e.1 then (detect e).toOption.map (fun img => (e.1, img)) else none) ∧
      (processZipEntries detect entries).errors =
        entries.filterMap (fun e =>
          if isImageName e.1 then
            match detect e with
            | Except.ok _ => none
            | Except.error m => some ("Error processing image " ++ e.1 ++ ": " ++ m)
          else none) := by
  intro entries
  induction entries with
  | nil => exact ⟨rfl, rfl, rfl⟩
  | cons e rest ih =>
    obtain ⟨ih1, ih2, ih3⟩ := ih
    cases hie : isImageName e.1 <;> cases hd : detect e <;>
      simp [processZipEntries, List.filterMap_cons, List.filter_cons, hie, hd,
        ih1, ih2, ih3, Except.toOption]
